/-
Verification of ComMute (src/commute.py): a shallow embedding of the
commercial-detection and auto-mute engine, with theorems checking the
natural-language specification against the code.

Modelling conventions:
  - Python floats are modelled as rationals (all constants and the
    arithmetic in the claims are exact at the probed points).
  - A video frame is modelled as its grayscale pixel grid, flattened to a
    list of brightness values (cv2.cvtColor is an adapter; the analysis is
    pointwise, so the 2-D shape is irrelevant).
  - collections.deque with maxlen is modelled as a list with an
    append-then-evict operation.
  - time.time() is passed in explicitly as a rational `now` parameter.
  - subprocess success or failure of the external `irsend` command is
    passed in as an explicit boolean oracle `sendOk`.
-/
import Mathlib

set_option maxRecDepth 4000

/-- A grayscale video frame: flattened grid of 0-255 brightness values. -/
abbrev Frame := List Nat

/-- cv2.absdiff on a single pixel pair. -/
def absdiff (a b : Nat) : Nat := max a b - min a b

/-- Appending to a collections.deque with a maximum length: append, then
evict from the front while over capacity. -/
def dequeAppend (maxlen : Nat) (xs : List α) (x : α) : List α :=
  let ys := xs ++ [x]
  if maxlen < ys.length then ys.drop (ys.length - maxlen) else ys

/-- Python slice xs[-n:]: the last n elements (the whole list when shorter). -/
def lastN (n : Nat) (xs : List α) : List α := xs.drop (xs.length - n)

/-- change_ratio from CommercialDetector.analyze_frame (commute.py line 112):
np.sum(diff > 30) / diff.size, with diff the per-pixel absolute difference
of the current frame against the previous one. -/
def change_ratio (prev curr : Frame) : ℚ :=
  (((List.zipWith absdiff curr prev).countP (fun d => 30 < d) : ℚ)) / (curr.length : ℚ)

/-- is_scene_change from commute.py line 114: change_ratio > threshold. -/
def is_scene_change (threshold : ℚ) (prev curr : Frame) : Bool :=
  decide (threshold < change_ratio prev curr)

/-- The piecewise-linear cut_rate-to-probability map inlined in
CommercialDetector.analyze_frame (commute.py lines 129-139). -/
def probability_of_rate (cut_rate : ℚ) : ℚ :=
  if cut_rate < 3/2 then 0
  else if cut_rate < 2 then (cut_rate - 3/2) / (1/2) * (1/2)
  else if cut_rate < 3 then 1/2 + (cut_rate - 2) / 1 * (3/10)
  else min (8/10 + (cut_rate - 3) / 2 * (2/10)) 1

/-- recent_cuts and cut_rate from commute.py lines 123-124: the sum of the
last 150 cut flags of the 10-second window, divided by 5.0 seconds. -/
def cutRate (w : List Nat) : ℚ := (((lastN 150 w).sum : ℕ) : ℚ) / 5

/-- State of CommercialDetector (commute.py lines 84-103), restricted to the
fields the detection logic reads or writes. `in_commercial` and
`commercial_start_time` belong to this object in the source and are mutated
by ComMute.process_stream. -/
structure CommercialDetector where
  scene_change_threshold : ℚ
  commercial_probability : ℚ
  commercial_start_time : Option ℚ
  in_commercial : Bool
  prev_frame : Option Frame
  scene_changes : List Nat
  cut_rate_window : List Nat
  audio_match_detected : Bool
  last_audio_match_time : ℚ

/-- CommercialDetector.__init__ with the default configuration
(scene_change_threshold 0.3). -/
def CommercialDetector.init : CommercialDetector where
  scene_change_threshold := 3/10
  commercial_probability := 0
  commercial_start_time := none
  in_commercial := false
  prev_frame := none
  scene_changes := []
  cut_rate_window := []
  audio_match_detected := false
  last_audio_match_time := 0

/-- CommercialDetector.analyze_frame (commute.py lines 105-147).
Returns the updated detector together with the pair the Python method
returns: (is_commercial, cut_rate). The scene_changes deque has maxlen 30
and the cut_rate_window deque has maxlen 300. -/
def CommercialDetector.analyze_frame (d : CommercialDetector) (frame : Frame) :
    CommercialDetector × Bool × ℚ :=
  let d1 :=
    match d.prev_frame with
    | some prev =>
        let flag : Nat := if is_scene_change d.scene_change_threshold prev frame then 1 else 0
        { d with
          scene_changes := dequeAppend 30 d.scene_changes flag,
          cut_rate_window := dequeAppend 300 d.cut_rate_window flag }
    | none => d
  let d2 := { d1 with prev_frame := some frame }
  if 150 ≤ d2.cut_rate_window.length then
    let cut_rate : ℚ := cutRate d2.cut_rate_window
    let d3 := { d2 with commercial_probability := probability_of_rate cut_rate }
    if 2 < cut_rate then (d3, true, cut_rate) else (d3, false, cut_rate)
  else
    ({ d2 with commercial_probability := 0 }, false, 0)

/-- CommercialDetector.is_commercial_likely (commute.py lines 157-170),
with time.time() passed in as `now`. -/
def CommercialDetector.is_commercial_likely (d : CommercialDetector) (now : ℚ) : Bool :=
  if d.scene_changes.length < 30 then false
  else
    let recent_changes := (lastN 30 d.scene_changes).sum
    let audio_match_recent := decide (now - d.last_audio_match_time < 10)
    decide (3 ≤ recent_changes) || audio_match_recent

/-- CommercialDetector.set_audio_match (commute.py lines 172-178),
with time.time() passed in as `now`. The confidence argument is only
logged by the source, so it is unused here. -/
def CommercialDetector.set_audio_match (d : CommercialDetector)
    (_match_confidence : ℚ) (now : ℚ) : CommercialDetector :=
  { d with
    audio_match_detected := true,
    last_audio_match_time := now,
    commercial_probability := max d.commercial_probability (9/10) }

/-- IRBlasterController state (commute.py lines 35-41): the mute flag. -/
structure IRBlasterController where
  is_muted : Bool

/-- IRBlasterController.mute (commute.py lines 62-69). `sendOk` is the
success of the external send_command subprocess call. Returns the new
state, the boolean return value, and whether an external command was
issued at all. -/
def IRBlasterController.mute (c : IRBlasterController) (sendOk : Bool) :
    IRBlasterController × Bool × Bool :=
  if !c.is_muted then
    if sendOk then ({ is_muted := true }, true, true)
    else (c, false, true)
  else (c, false, false)

/-- IRBlasterController.unmute (commute.py lines 71-78), symmetric. -/
def IRBlasterController.unmute (c : IRBlasterController) (sendOk : Bool) :
    IRBlasterController × Bool × Bool :=
  if c.is_muted then
    if sendOk then ({ is_muted := false }, true, true)
    else (c, false, true)
  else (c, false, false)

/-- The counters of ComMute.stats touched by the decision loop
(commute.py lines 301-308). -/
structure Stats where
  commercials_detected : Nat
  audio_matches : Nat
  mute_commands_sent : Nat
  unmute_commands_sent : Nat

/-- The statistics update ComMute.process_stream performs around a mute()
call (commute.py lines 470-471): the mute_commands_sent counter increments
exactly when mute() returns true. Returns the controller, the updated
stats, and whether an external command was issued. -/
def muteAndCount (c : IRBlasterController) (stats : Stats) (sendOk : Bool) :
    IRBlasterController × Stats × Bool :=
  let m := c.mute sendOk
  (m.1,
   if m.2.1 then { stats with mute_commands_sent := stats.mute_commands_sent + 1 }
   else stats,
   m.2.2)

/-- State carried across iterations of ComMute.process_stream. -/
structure LoopState where
  streak : Int
  detector : CommercialDetector
  ir : IRBlasterController
  stats : Stats

/-- min_commercial_frames (commute.py line 428):
min_commercial_duration times fps. -/
def min_commercial_frames (min_commercial_duration fps : Int) : Int :=
  min_commercial_duration * fps

/-- One iteration of the decision part of ComMute.process_stream
(commute.py lines 458-485). `signal` is the per-tick occurrence boolean
is_commercial or detector.is_commercial_likely(); `sendOk` is the success
of the external IR command if one is attempted; `now` is time.time(). -/
def processTick (minFrames : Int) (signal sendOk : Bool) (now : ℚ)
    (s : LoopState) : LoopState :=
  if signal then
    let streak := s.streak + 1
    if minFrames ≤ streak then
      if !s.detector.in_commercial then
        let m := s.ir.mute sendOk
        { streak,
          detector := { s.detector with
                        in_commercial := true,
                        commercial_start_time := some now },
          ir := m.1,
          stats := { s.stats with
                     commercials_detected := s.stats.commercials_detected + 1,
                     mute_commands_sent :=
                       if m.2.1 then s.stats.mute_commands_sent + 1
                       else s.stats.mute_commands_sent } }
      else { s with streak }
    else { s with streak }
  else
    let streak := if 0 < s.streak then max 0 (s.streak - 2) else s.streak
    if s.detector.in_commercial ∧ streak = 0 then
      let u := s.ir.unmute sendOk
      { streak,
        detector := { s.detector with in_commercial := false },
        ir := u.1,
        stats := { s.stats with
                   unmute_commands_sent :=
                     if u.2.1 then s.stats.unmute_commands_sent + 1
                     else s.stats.unmute_commands_sent } }
    else { s with streak }

/-- A fresh loop state: streak 0, fresh detector, unmuted, zero counters. -/
def sC1 : LoopState :=
  ⟨0, CommercialDetector.init, ⟨false⟩, ⟨0, 0, 0, 0⟩⟩

/-- A loop state one tick before the commercial threshold, in PROGRAM,
unmuted, zero counters. -/
def sC7 : LoopState :=
  ⟨149, CommercialDetector.init, ⟨false⟩, ⟨0, 0, 0, 0⟩⟩

/-- A detector whose 1-second window is full of cut flags. -/
def dC4 : CommercialDetector :=
  { CommercialDetector.init with scene_changes := List.replicate 30 1 }

/-- A detector whose 10-second window already holds exactly 150 entries. -/
def dC5 : CommercialDetector :=
  { CommercialDetector.init with cut_rate_window := List.replicate 150 0 }

/-- A detector with a stored previous frame and 149 window entries, one
short of the 5-second threshold, all of them cuts. -/
def dC6 : CommercialDetector :=
  { CommercialDetector.init with
    prev_frame := some [0, 0, 0, 0],
    cut_rate_window := List.replicate 149 1 }

/-- A detector with a stored previous frame and empty windows. -/
def dC8 : CommercialDetector :=
  { CommercialDetector.init with prev_frame := some [0, 0, 0, 0] }

/-- A detector with a stored previous frame, for the window-update witness. -/
def dC9 : CommercialDetector :=
  { CommercialDetector.init with prev_frame := some [7, 7] }

/-- Helper: over a list of 0/1 flags the sum equals the number of 1s. -/
theorem sum_eq_count_one (xs : List Nat) (h : ∀ x ∈ xs, x = 0 ∨ x = 1) :
    xs.sum = xs.count 1 := by
  induction xs with
  | nil => simp
  | cons a t ih =>
    have ht : ∀ x ∈ t, x = 0 ∨ x = 1 := fun x hx => h x (by simp [hx])
    rcases h a (by simp) with h0 | h0
    · subst h0
      simp [ih ht]
    · subst h0
      simp [List.count_cons, ih ht]
      omega

/-- C1: on every decision tick the streak is incremented by 1 when the
occurrence signal is true and set to max(0, streak - 2) when it is false,
so it stays nonnegative; the decision flag flips PROGRAM to COMMERCIAL only
on a true signal with the streak reaching at least minFrames, flips
COMMERCIAL to PROGRAM only on a false signal with the streak decayed to
exactly 0, and there are no other transitions; the default threshold
min_commercial_duration times fps is 5 times 30 = 150. -/
theorem streak_hysteresis (minFrames : Int) (signal sendOk : Bool) (now : ℚ)
    (s : LoopState) (h : 0 ≤ s.streak) :
    ((processTick minFrames signal sendOk now s).streak
        = if signal then s.streak + 1 else max 0 (s.streak - 2)) ∧
    0 ≤ (processTick minFrames signal sendOk now s).streak ∧
    (s.detector.in_commercial = false →
      (processTick minFrames signal sendOk now s).detector.in_commercial = true →
      signal = true ∧ minFrames ≤ (processTick minFrames signal sendOk now s).streak) ∧
    (s.detector.in_commercial = true →
      (processTick minFrames signal sendOk now s).detector.in_commercial = false →
      signal = false ∧ (processTick minFrames signal sendOk now s).streak = 0) ∧
    min_commercial_frames 5 30 = 150 := by
  cases signal <;>
    simp only [processTick, min_commercial_frames] <;>
    split_ifs <;>
    simp_all <;>
    omega

/-- C1 witness: the tick law evaluated at a concrete fresh state. -/
theorem streak_hysteresis_witness :
    0 ≤ sC1.streak ∧
    (((processTick 150 true true 0 sC1).streak
        = if true then sC1.streak + 1 else max 0 (sC1.streak - 2)) ∧
    0 ≤ (processTick 150 true true 0 sC1).streak ∧
    (sC1.detector.in_commercial = false →
      (processTick 150 true true 0 sC1).detector.in_commercial = true →
      true = true ∧ (150:Int) ≤ (processTick 150 true true 0 sC1).streak) ∧
    (sC1.detector.in_commercial = true →
      (processTick 150 true true 0 sC1).detector.in_commercial = false →
      true = false ∧ (processTick 150 true true 0 sC1).streak = 0) ∧
    min_commercial_frames 5 30 = 150) :=
  ⟨by norm_num [sC1], streak_hysteresis 150 true true 0 sC1 (by norm_num [sC1])⟩

/-- C2 counterexample: from a fresh detector, an audio match at time 0
raises the probability to 0.9, but one analyze_frame call immediately
afterwards sets it back to 0.0, although only 1 second (less than 10) has
elapsed since the match. The claim that the probability stays at least 0.9
across analyze_frame until 10 seconds elapse is therefore false. -/
theorem audio_match_persistence_cex :
    ((CommercialDetector.init.set_audio_match 1 0).commercial_probability = 9/10) ∧
    ((((CommercialDetector.init.set_audio_match 1 0).analyze_frame
        [0, 0, 0, 0]).1).commercial_probability = 0) ∧
    ((1 : ℚ) - (((CommercialDetector.init.set_audio_match 1 0).analyze_frame
        [0, 0, 0, 0]).1).last_audio_match_time < 10) ∧
    ((0 : ℚ) < 9/10) := by
  refine ⟨?_, ?_, ?_, by norm_num⟩ <;>
    norm_num [CommercialDetector.analyze_frame, CommercialDetector.set_audio_match,
      CommercialDetector.init, max_def]

/-- C2 (amended): set_audio_match sets the probability to the maximum of
its prior value and 0.9, so immediately after the call it is at least 0.9,
at least its prior value (a match never decreases it), and the match time
is recorded; the bound is not maintained by later analyze_frame calls. -/
theorem set_audio_match_boost (d : CommercialDetector) (c now : ℚ) :
    ((d.set_audio_match c now).commercial_probability
        = max d.commercial_probability (9/10)) ∧
    (9/10 : ℚ) ≤ (d.set_audio_match c now).commercial_probability ∧
    d.commercial_probability ≤ (d.set_audio_match c now).commercial_probability ∧
    (d.set_audio_match c now).last_audio_match_time = now := by
  refine ⟨rfl, ?_, ?_, rfl⟩
  · simp [CommercialDetector.set_audio_match]
  · simp [CommercialDetector.set_audio_match]

/-- C3 counterexample: when the external send fails, mute() leaves the
state unmuted, so a second mute() issues a second external command; with
both sends failing, the pair issues two commands and the counter is
incremented zero times, not exactly once. -/
theorem mute_twice_after_failure_cex :
    ((IRBlasterController.mk false).mute false).2.2 = true ∧
    ((((IRBlasterController.mk false).mute false).1.mute false).2.2 = true) ∧
    (((IRBlasterController.mk false).mute false).2.1 = false) ∧
    ((((IRBlasterController.mk false).mute false).1.mute false).2.1 = false) ∧
    ((muteAndCount (muteAndCount ⟨false⟩ ⟨0, 0, 0, 0⟩ false).1
        (muteAndCount ⟨false⟩ ⟨0, 0, 0, 0⟩ false).2.1 false).2.1.mute_commands_sent
      = 0) := by
  decide

/-- C3 (amended): if the first mute() succeeds, a second mute() with no
intervening unmute() sends no external command, changes no state, and
returns false; the first call issued exactly one command, and across the
pair the mute-commands-sent counter is incremented by exactly 1. If the
first call fails the second retries and may issue another command. -/
theorem mute_idempotent_after_success (c : IRBlasterController) (stats : Stats)
    (ok1 ok2 : Bool) (h : (c.mute ok1).2.1 = true) :
    ((c.mute ok1).1.mute ok2 = ((c.mute ok1).1, false, false)) ∧
    (c.mute ok1).2.2 = true ∧
    ((muteAndCount (muteAndCount c stats ok1).1
        (muteAndCount c stats ok1).2.1 ok2).2.1.mute_commands_sent
      = stats.mute_commands_sent + 1) := by
  rcases c with ⟨m⟩
  cases m <;> cases ok1 <;>
    simp_all [IRBlasterController.mute, muteAndCount]

/-- C3 witness: the amended idempotence law at a concrete unmuted
controller whose first send succeeds. -/
theorem mute_idempotent_after_success_witness :
    (((IRBlasterController.mk false).mute true).2.1 = true) ∧
    ((((IRBlasterController.mk false).mute true).1.mute false
        = (((IRBlasterController.mk false).mute true).1, false, false)) ∧
    ((IRBlasterController.mk false).mute true).2.2 = true ∧
    ((muteAndCount (muteAndCount (IRBlasterController.mk false) ⟨0, 0, 0, 0⟩ true).1
        (muteAndCount (IRBlasterController.mk false) ⟨0, 0, 0, 0⟩ true).2.1 false).2.1.mute_commands_sent
      = (Stats.mk 0 0 0 0).mute_commands_sent + 1)) :=
  ⟨by decide,
   mute_idempotent_after_success (IRBlasterController.mk false) (Stats.mk 0 0 0 0)
     true false (by decide)⟩

/-- C4: once the 1-second window holds at least 30 entries (all of them
0/1 flags, as the code maintains), is_commercial_likely returns true
exactly when the count of 1s among the most recent 30 entries is at least
3 or the time since the last audio match is strictly less than 10. -/
theorem is_commercial_likely_spec (d : CommercialDetector) (now : ℚ)
    (hlen : 30 ≤ d.scene_changes.length)
    (hbits : ∀ x ∈ d.scene_changes, x = 0 ∨ x = 1) :
    (d.is_commercial_likely now = true ↔
      3 ≤ (lastN 30 d.scene_changes).count 1 ∨ now - d.last_audio_match_time < 10) := by
  have hb : ∀ x ∈ lastN 30 d.scene_changes, x = 0 ∨ x = 1 := fun x hx =>
    hbits x ((List.drop_sublist _ _).subset hx)
  unfold CommercialDetector.is_commercial_likely
  rw [if_neg (by omega)]
  simp [sum_eq_count_one _ hb]

/-- C4 witness: the occurrence rule at a detector with a full window. -/
theorem is_commercial_likely_spec_witness :
    (30 ≤ dC4.scene_changes.length ∧ (∀ x ∈ dC4.scene_changes, x = 0 ∨ x = 1)) ∧
    (dC4.is_commercial_likely 100 = true ↔
      3 ≤ (lastN 30 dC4.scene_changes).count 1 ∨
        (100 : ℚ) - dC4.last_audio_match_time < 10) :=
  ⟨⟨by decide, by decide⟩, is_commercial_likely_spec dC4 100 (by decide) (by decide)⟩

/-- C5: the cut-rate-to-probability curve takes value 0.0 at rate 1.5, 0.5
at 2.0, 0.8 at 3.0, 1.0 at 5.0, and is exactly 1.0 (capped, never above)
for every rate at least 5.0; and whenever the window holds at least 150
entries after an analyze_frame call, the stored probability is exactly the
curve applied to the computed cut rate. -/
theorem cut_rate_probability_curve :
    probability_of_rate (3/2) = 0 ∧
    probability_of_rate 2 = 1/2 ∧
    probability_of_rate 3 = 8/10 ∧
    probability_of_rate 5 = 1 ∧
    (∀ r : ℚ, 5 ≤ r → probability_of_rate r = 1) ∧
    (∀ (d : CommercialDetector) (f : Frame),
      150 ≤ ((d.analyze_frame f).1).cut_rate_window.length →
      ((d.analyze_frame f).1).commercial_probability =
        probability_of_rate (cutRate ((d.analyze_frame f).1).cut_rate_window)) := by
  refine ⟨by norm_num [probability_of_rate], by norm_num [probability_of_rate],
    by norm_num [probability_of_rate], by norm_num [probability_of_rate, min_def],
    ?_, ?_⟩
  · intro r hr
    rw [probability_of_rate, if_neg (by linarith), if_neg (by linarith),
      if_neg (by linarith), min_eq_right (by linarith)]
  · intro d f h
    rcases hp : d.prev_frame with _ | p <;>
      simp only [CommercialDetector.analyze_frame, hp] at h ⊢ <;>
      split_ifs at h ⊢ <;>
      first
        | rfl
        | (simp at h; omega)

/-- C5 witness: the cap at rate 10 and the probability-curve link at a
detector with a full 150-entry window. -/
theorem cut_rate_probability_curve_witness :
    ((5:ℚ) ≤ 10 ∧ probability_of_rate 10 = 1) ∧
    (150 ≤ ((dC5.analyze_frame [0, 0, 0, 0]).1).cut_rate_window.length ∧
      ((dC5.analyze_frame [0, 0, 0, 0]).1).commercial_probability =
        probability_of_rate (cutRate ((dC5.analyze_frame [0, 0, 0, 0]).1).cut_rate_window)) := by
  have hwin : ((dC5.analyze_frame [0, 0, 0, 0]).1).cut_rate_window
      = List.replicate 150 0 := by
    simp only [CommercialDetector.analyze_frame, dC5, CommercialDetector.init]
    rw [if_pos (by norm_num)]
    split_ifs <;> rfl
  have hlen : 150 ≤ ((dC5.analyze_frame [0, 0, 0, 0]).1).cut_rate_window.length := by
    rw [hwin]; norm_num
  exact ⟨⟨by norm_num, cut_rate_probability_curve.2.2.2.2.1 10 (by norm_num)⟩,
    hlen, cut_rate_probability_curve.2.2.2.2.2 dC5 [0, 0, 0, 0] hlen⟩

/-- C6 counterexample: a detector state with 149 entries (fewer than 150)
in the cut-rate window before the call can leave analyze_frame with a
probability of 1.0, because the length check happens after the new flag is
appended; so the claim quantified over the pre-call state is false. -/
theorem cold_start_boundary_cex :
    dC6.cut_rate_window.length = 149 ∧
    ((dC6.analyze_frame [255, 255, 255, 255]).1).commercial_probability = 1 := by
  refine ⟨by decide, ?_⟩
  have hcut : is_scene_change (3/10) [0, 0, 0, 0] [255, 255, 255, 255] = true := by
    norm_num [is_scene_change, change_ratio, absdiff]
  have happ : dequeAppend 300 (List.replicate 149 1) 1 = List.replicate 149 1 ++ [1] := by
    simp [dequeAppend]
  have hrate : cutRate (List.replicate 149 1 ++ [1]) = 30 := by
    norm_num [cutRate, lastN, List.sum_append, List.sum_replicate]
  have hlen : 150 ≤ (List.replicate 149 1 ++ [1] : List ℕ).length := by norm_num
  simp only [CommercialDetector.analyze_frame, dC6, CommercialDetector.init, hcut,
    eq_self_iff_true, if_true, happ]
  rw [if_pos hlen]
  split_ifs <;>
    norm_num [hrate, probability_of_rate, min_def]

/-- C6 (amended): whenever the cut-rate window holds fewer than 150
entries after the analyze_frame call (the check the code performs, after
the append), the stored probability is exactly 0.0 regardless of the raw
cut flags. -/
theorem cold_start_probability_zero (d : CommercialDetector) (f : Frame)
    (h : ((d.analyze_frame f).1).cut_rate_window.length < 150) :
    ((d.analyze_frame f).1).commercial_probability = 0 := by
  rcases hp : d.prev_frame with _ | p <;>
    simp only [CommercialDetector.analyze_frame, hp] at h ⊢ <;>
    split_ifs at h ⊢ <;>
    first
      | rfl
      | (simp at h; omega)

/-- C6 witness: a fresh detector has an empty window after one call and
probability exactly 0. -/
theorem cold_start_probability_zero_witness :
    ((CommercialDetector.init.analyze_frame [0, 0, 0, 0]).1).cut_rate_window.length < 150 ∧
    ((CommercialDetector.init.analyze_frame [0, 0, 0, 0]).1).commercial_probability = 0 := by
  have hwin : ((CommercialDetector.init.analyze_frame [0, 0, 0, 0]).1).cut_rate_window
      = ([] : List ℕ) := by
    simp [CommercialDetector.analyze_frame, CommercialDetector.init]
  have hlen : ((CommercialDetector.init.analyze_frame [0, 0, 0, 0]).1).cut_rate_window.length
      < 150 := by
    rw [hwin]; norm_num
  exact ⟨hlen, cold_start_probability_zero _ _ hlen⟩

/-- C7 counterexample: at the PROGRAM-to-COMMERCIAL transition with the
external send failing, the state stays unmuted and the decision flips, but
no counter records the failure: mute, unmute and audio counters are all
unchanged, and the only counter that changes (commercials_detected)
increments identically when the send succeeds, so it is not a failure
counter. The stats dictionary has no failure counter at all. -/
theorem mute_failure_counter_cex :
    ((processTick 150 true false 0 sC7).ir.is_muted = false) ∧
    ((processTick 150 true false 0 sC7).detector.in_commercial = true) ∧
    ((processTick 150 true false 0 sC7).stats.mute_commands_sent = 0) ∧
    ((processTick 150 true false 0 sC7).stats.unmute_commands_sent = 0) ∧
    ((processTick 150 true false 0 sC7).stats.audio_matches = 0) ∧
    ((processTick 150 true false 0 sC7).stats.commercials_detected = 1) ∧
    ((processTick 150 true true 0 sC7).stats.commercials_detected = 1) := by
  refine ⟨?_, ?_, ?_, ?_, ?_, ?_, ?_⟩ <;>
    simp [processTick, IRBlasterController.mute, sC7, CommercialDetector.init]

/-- C7 (amended): when the mute() call at a commercial transition fails,
the mute state is left false (unchanged), the decision state still flips
to COMMERCIAL exactly as it does when the call succeeds, and no counter is
incremented for the failure (mute, unmute and audio counters unchanged);
the failure is only logged. -/
theorem mute_failure_effects (minFrames : Int) (now : ℚ) (s : LoopState)
    (h1 : s.detector.in_commercial = false)
    (h2 : s.ir.is_muted = false)
    (h3 : minFrames ≤ s.streak + 1) :
    ((processTick minFrames true false now s).ir.is_muted = false) ∧
    ((processTick minFrames true false now s).detector.in_commercial = true) ∧
    ((processTick minFrames true false now s).stats.mute_commands_sent
        = s.stats.mute_commands_sent) ∧
    ((processTick minFrames true false now s).stats.unmute_commands_sent
        = s.stats.unmute_commands_sent) ∧
    ((processTick minFrames true false now s).stats.audio_matches
        = s.stats.audio_matches) ∧
    ((processTick minFrames true false now s).detector.in_commercial
        = (processTick minFrames true true now s).detector.in_commercial) := by
  simp [processTick, IRBlasterController.mute, h1, h2, if_pos h3]

/-- C7 witness: the failure effects at a concrete transition state. -/
theorem mute_failure_effects_witness :
    (sC7.detector.in_commercial = false ∧ sC7.ir.is_muted = false ∧
      (150:Int) ≤ sC7.streak + 1) ∧
    (((processTick 150 true false 0 sC7).ir.is_muted = false) ∧
    ((processTick 150 true false 0 sC7).detector.in_commercial = true) ∧
    ((processTick 150 true false 0 sC7).stats.mute_commands_sent
        = sC7.stats.mute_commands_sent) ∧
    ((processTick 150 true false 0 sC7).stats.unmute_commands_sent
        = sC7.stats.unmute_commands_sent) ∧
    ((processTick 150 true false 0 sC7).stats.audio_matches
        = sC7.stats.audio_matches) ∧
    ((processTick 150 true false 0 sC7).detector.in_commercial
        = (processTick 150 true true 0 sC7).detector.in_commercial)) :=
  ⟨⟨rfl, rfl, by norm_num [sC7]⟩,
   mute_failure_effects 150 0 sC7 rfl rfl (by norm_num [sC7])⟩

/-- C8 counterexample: with a stored previous frame and an incoming frame
that is classified as a scene cut, analyze_frame still returns false as
its first component (the window holds fewer than 150 entries), so the
first component is not the instantaneous cut boolean. -/
theorem analyze_frame_return_cex :
    is_scene_change dC8.scene_change_threshold [0, 0, 0, 0] [255, 255, 255, 255] = true ∧
    (dC8.analyze_frame [255, 255, 255, 255]).2.1 = false := by
  constructor
  · show is_scene_change (3/10) [0, 0, 0, 0] [255, 255, 255, 255] = true
    norm_num [is_scene_change, change_ratio, absdiff]
  · simp [CommercialDetector.analyze_frame, dC8, CommercialDetector.init, dequeAppend]

/-- C8 (amended): analyze_frame returns (is_commercial, cut_rate): when
the post-call window holds fewer than 150 entries both components are
false and 0; once it holds at least 150, the second component is the
computed cut rate and the first component is true exactly when that rate
exceeds 2.0. The first component is not the per-frame cut boolean. -/
theorem analyze_frame_return_spec (d : CommercialDetector) (f : Frame) :
    (((d.analyze_frame f).1).cut_rate_window.length < 150 →
      (d.analyze_frame f).2.1 = false ∧ (d.analyze_frame f).2.2 = 0) ∧
    (150 ≤ ((d.analyze_frame f).1).cut_rate_window.length →
      ((d.analyze_frame f).2.2 = cutRate ((d.analyze_frame f).1).cut_rate_window) ∧
      ((d.analyze_frame f).2.1 = true ↔ 2 < (d.analyze_frame f).2.2)) := by
  constructor <;>
    intro h <;>
    rcases hp : d.prev_frame with _ | p <;>
      simp only [CommercialDetector.analyze_frame, hp] at h ⊢ <;>
      split_ifs at h ⊢ <;>
      first
        | (simp_all; done)
        | (simp at h; omega)

/-- C8 witness: the cold-start return values at a fresh detector. -/
theorem analyze_frame_return_spec_witness :
    ((CommercialDetector.init.analyze_frame [0, 0, 0, 0]).1).cut_rate_window.length < 150 ∧
    ((CommercialDetector.init.analyze_frame [0, 0, 0, 0]).2.1 = false ∧
      (CommercialDetector.init.analyze_frame [0, 0, 0, 0]).2.2 = 0) := by
  have hlen : ((CommercialDetector.init.analyze_frame [0, 0, 0, 0]).1).cut_rate_window.length
      < 150 := by
    simp [CommercialDetector.analyze_frame, CommercialDetector.init]
  exact ⟨hlen, (analyze_frame_return_spec CommercialDetector.init [0, 0, 0, 0]).1 hlen⟩

/-- C9 counterexample: the very first analyze_frame call (no stored
previous frame) appends nothing to either window, refuting the claim that
every call appends exactly one flag; it does store the frame. -/
theorem analyze_frame_first_call_cex :
    CommercialDetector.init.prev_frame = none ∧
    ((CommercialDetector.init.analyze_frame [0, 0, 0, 0]).1).scene_changes.length = 0 ∧
    ((CommercialDetector.init.analyze_frame [0, 0, 0, 0]).1).cut_rate_window.length = 0 ∧
    ((CommercialDetector.init.analyze_frame [0, 0, 0, 0]).1).prev_frame
        = some [0, 0, 0, 0] := by
  refine ⟨rfl, ?_, ?_, ?_⟩ <;>
    simp [CommercialDetector.analyze_frame, CommercialDetector.init]

/-- C9 (amended): every analyze_frame call replaces the stored previous
frame with the current one; when a previous frame is present it appends
exactly one 0/1 flag to both the 1-second and the 10-second window
(evicting the oldest entry at capacity), and on the first call (no
previous frame) both windows are left unchanged. -/
theorem analyze_frame_window_update (d : CommercialDetector) (f : Frame) :
    ((d.analyze_frame f).1).prev_frame = some f ∧
    (∀ p, d.prev_frame = some p →
      ((d.analyze_frame f).1).scene_changes
          = dequeAppend 30 d.scene_changes
              (if is_scene_change d.scene_change_threshold p f then 1 else 0) ∧
      ((d.analyze_frame f).1).cut_rate_window
          = dequeAppend 300 d.cut_rate_window
              (if is_scene_change d.scene_change_threshold p f then 1 else 0)) ∧
    (d.prev_frame = none →
      ((d.analyze_frame f).1).scene_changes = d.scene_changes ∧
      ((d.analyze_frame f).1).cut_rate_window = d.cut_rate_window) := by
  rcases hp : d.prev_frame with _ | p <;>
    simp only [CommercialDetector.analyze_frame, hp] <;>
    split_ifs <;>
    simp_all

/-- C9 witness: the window update at a detector holding a previous frame. -/
theorem analyze_frame_window_update_witness :
    dC9.prev_frame = some [7, 7] ∧
    ((dC9.analyze_frame [8, 8]).1).prev_frame = some [8, 8] ∧
    ((dC9.analyze_frame [8, 8]).1).scene_changes
        = dequeAppend 30 dC9.scene_changes
            (if is_scene_change dC9.scene_change_threshold [7, 7] [8, 8] then 1 else 0) ∧
    ((dC9.analyze_frame [8, 8]).1).cut_rate_window
        = dequeAppend 300 dC9.cut_rate_window
            (if is_scene_change dC9.scene_change_threshold [7, 7] [8, 8] then 1 else 0) := by
  have h := analyze_frame_window_update dC9 [8, 8]
  exact ⟨rfl, h.1, (h.2.1 [7, 7] rfl).1, (h.2.1 [7, 7] rfl).2⟩

/-- C10: with fewer than 30 entries in the 1-second window,
is_commercial_likely returns false even when an audio match happened less
than 10 seconds ago: during visual cold start a valid audio match alone
never produces the occurrence signal. -/
theorem cold_start_likely_false (d : CommercialDetector) (now : ℚ)
    (hlen : d.scene_changes.length < 30)
    (_hmatch : now - d.last_audio_match_time < 10) :
    d.is_commercial_likely now = false := by
  unfold CommercialDetector.is_commercial_likely
  rw [if_pos hlen]

/-- C10 witness: a fresh detector with a match 0 seconds ago still reports
no occurrence. -/
theorem cold_start_likely_false_witness :
    (CommercialDetector.init.scene_changes.length < 30 ∧
      (0:ℚ) - CommercialDetector.init.last_audio_match_time < 10) ∧
    CommercialDetector.init.is_commercial_likely 0 = false :=
  ⟨⟨by norm_num [CommercialDetector.init], by norm_num [CommercialDetector.init]⟩,
   cold_start_likely_false CommercialDetector.init 0
     (by norm_num [CommercialDetector.init]) (by norm_num [CommercialDetector.init])⟩
